import Mathlib

/-!
Shallow embedding of `ig-analyzer` (two near-duplicate Python sources:
`scripts/ig_analyze.py`, called the *scripts variant* below, and
`.github/workflows/scripts/ig_analyze.py`, called the *workflow variant*).

Conventions of the embedding:
* Python `int` is `Int` (unbounded in Python), Python `float` arithmetic on the
  small counts handled here is modelled exactly over `ℚ`.
* Python `None` for an optional int is `Option Int`; inside JSON data,
  `None`/JSON `null` is the `JValue.null` constructor.
* Fallible Python code is modelled in `Except Unit`: `.error ()` stands for a
  raised exception, `try/except` blocks recover explicitly.
* Strings are modelled as `List Char` (`String.data` of literals).
-/

namespace IgAnalyzer

/-- The characters `{` and `}` used throughout the scraped-text model. -/
def lbrace : Char := Char.ofNat 123

/-- The closing brace character. -/
def rbrace : Char := Char.ofNat 125

/-- Python truthiness of an optional int (`None` and `0` are falsy). -/
def pyTruthyOptInt : Option Int → Bool
  | none => false
  | some n => n != 0

/-- Python true division `a / b`, raising `ZeroDivisionError` when `b = 0`.
Result of `int / int` is a float, modelled exactly in `ℚ`. -/
def pyDiv (a b : ℚ) : Except Unit ℚ :=
  if b = 0 then .error () else .ok (a / b)

/-! ## Post-link collector

Workflow variant, `extract_recent_post_urls` (lines 45-56): collect the
`href` of every anchor whose path starts with `/p/`, prepend the site origin,
deduplicate keeping first-seen order with a `seen` set, and return `out[:limit]`.
The scripts variant (`scrape_profile` lines 68-72) is the same pipeline with
`list(dict.fromkeys(...))` as the deduplication, which also keeps first
insertion order.  The anchors of the parsed document are modelled as the list
of their `href` strings in document order (the HTML parsing itself is done by
BeautifulSoup, an external library). -/

/-- `s` starts with the literal `pat` (Python `str.startswith` / an exact
regex-literal prefix); returns the remaining suffix on success. -/
def expectLit : List Char → List Char → Option (List Char)
  | [], s => some s
  | _ :: _, [] => none
  | p :: ps, c :: cs => if p = c then expectLit ps cs else none

/-- `a["href"].startswith("/p/")` — the filter both variants apply. -/
def postQualify (h : List Char) : Bool :=
  (expectLit ("/p/").data h).isSome

/-- The absolute-URL prefix both variants prepend. -/
def igBase : List Char := ("https://www.instagram.com").data

/-- The qualifying links of a page, rewritten to absolute URLs, in document
order (the `urls` list both variants build before deduplicating). -/
def qualifyingLinks (hrefs : List (List Char)) : List (List Char) :=
  (hrefs.filter postQualify).map (fun h => igBase ++ h)

/-- First-seen-order deduplication with an accumulating `seen` set — the
`seen, out` loop of the workflow variant; `list(dict.fromkeys(...))` of the
scripts variant has the same semantics. -/
def dedupAux : List (List Char) → List (List Char) → List (List Char)
  | [], _ => []
  | x :: xs, seen => if x ∈ seen then dedupAux xs seen else x :: dedupAux xs (x :: seen)

/-- Deduplicate keeping the first occurrence of each element. -/
def dedupFirstSeen (l : List (List Char)) : List (List Char) :=
  dedupAux l []

/-- Python slice `l[:n]` for an `int` bound `n`: `take n` when `0 ≤ n`, and
removal of the last `|n|` elements when `n < 0`. -/
def pySliceTo {α : Type} (l : List α) (n : Int) : List α :=
  if 0 ≤ n then l.take n.toNat else l.take (l.length - (-n).toNat)

/-- `extract_recent_post_urls` of the workflow variant (and the equivalent
scripts-variant pipeline), as a function of the document's anchor hrefs. -/
def extract_recent_post_urls (hrefs : List (List Char)) (limit : Int) : List (List Char) :=
  pySliceTo (dedupFirstSeen (qualifyingLinks hrefs)) limit

/-! ## Per-post engagement

Workflow variant, `scrape_profile` lines 107 and 117-119:
`followers = counts.get("followers") or 0` and then
`if followers and (likes is not None or comments is not None):
   engagement = ((likes or 0) + (comments or 0)) / followers`.
The guard makes the division safe, so this arm is modelled as a pure value. -/

/-- Workflow-variant engagement of one post. -/
def engagementW (followers : Int) (likes comments : Option Int) : Option ℚ :=
  if followers ≠ 0 ∧ (likes.isSome ∨ comments.isSome) then
    some (((likes.getD 0 + comments.getD 0 : Int) : ℚ) / (followers : ℚ))
  else none

/-! Scripts variant, `scrape_profile` lines 93-98:
`"engagement": safe_float((likes or 0 + comments or 0) / followers) if followers else None`.
By Python precedence the numerator parses as `likes or ((0 + comments) or 0)`:
when `likes` is truthy the comments are never read (short-circuit); when
`likes` is `None` or `0`, Python evaluates `0 + comments`, which raises
`TypeError` when `comments` is `None`.  `safe_float` applied to the float
quotient is the identity. -/

/-- The right operand `(0 + comments) or 0` of the scripts-variant numerator;
raises `TypeError` when `comments` is `None`. -/
def scriptsNumRhs : Option Int → Except Unit Int
  | none => .error ()
  | some c => .ok (if 0 + c ≠ 0 then 0 + c else 0)

/-- The scripts-variant numerator `likes or 0 + comments or 0` with Python's
actual precedence and short-circuiting. -/
def scriptsNum (likes comments : Option Int) : Except Unit Int :=
  match likes with
  | some l => if l ≠ 0 then .ok l else scriptsNumRhs comments
  | none => scriptsNumRhs comments

/-- Scripts-variant engagement of one post (line 96); `followers` is falsy when
`None` or `0`, in which case the whole expression is `None`. -/
def scriptsEngagement (followers likes comments : Option Int) : Except Unit (Option ℚ) :=
  if pyTruthyOptInt followers then do
    let n ← scriptsNum likes comments
    let q ← pyDiv (n : ℚ) ((followers.getD 0 : Int) : ℚ)
    .ok (some q)
  else .ok none

/-! ## Post records and the post loop -/

/-- The `PostStat` dataclass of the workflow variant (fields typed per its
`Optional[int]` / `Optional[float]` annotations); the scripts variant builds
the same dict shape inline. -/
structure PostStat where
  url : List Char
  likes : Option Int
  comments : Option Int
  engagement : Option ℚ
deriving DecidableEq, Repr

/-- One iteration of the workflow-variant post loop (lines 109-122): a fetch
outcome is either `.error ()` (navigation/extraction raised, the `except`
branch appends an all-null record) or the extracted `(likes, comments)`. -/
def postRecordW (followers : Int) (url : List Char)
    (fetch : Except Unit (Option Int × Option Int)) : PostStat :=
  match fetch with
  | .error _ => ⟨url, none, none, none⟩
  | .ok (l, c) => ⟨url, l, c, engagementW followers l c⟩

/-- The workflow-variant post loop over the collected URLs with their fetch
outcomes. -/
def processPostsW (followers : Int)
    (fetches : List (List Char × Except Unit (Option Int × Option Int))) : List PostStat :=
  fetches.map (fun uf => postRecordW followers uf.1 uf.2)

/-- One iteration of the scripts-variant post loop (lines 75-101): the
engagement expression sits inside the same `try`, so a `TypeError` raised
there also lands in the `except` branch that appends the all-null record. -/
def postRecordS (followers : Option Int) (url : List Char)
    (fetch : Except Unit (Option Int × Option Int)) : PostStat :=
  match fetch with
  | .error _ => ⟨url, none, none, none⟩
  | .ok (l, c) =>
    match scriptsEngagement followers l c with
    | .error _ => ⟨url, none, none, none⟩
    | .ok eng => ⟨url, l, c, eng⟩

/-- The scripts-variant post loop. -/
def processPostsS (followers : Option Int)
    (fetches : List (List Char × Except Unit (Option Int × Option Int))) : List PostStat :=
  fetches.map (fun uf => postRecordS followers uf.1 uf.2)

/-! ## Aggregation

Workflow variant lines 126-129 (the scripts variant, lines 103-109, computes
the same three expressions modulo the identity wrappers `float`/`safe_float`):

  valid = [p for p in posts if p.engagement is not None]
  avg_eng = float(sum(p.engagement for p in valid)/len(valid)) if valid else None
  avg_likes = float(sum((p.likes or 0) for p in posts)/len(posts)) if posts else None
  avg_comments = float(sum((p.comments or 0) for p in posts)/len(posts)) if posts else None

`p.likes or 0` equals `p.likes.getD 0` here: it yields `0` both when `likes`
is `None` and when it is `0`.  Division is modelled with `pyDiv` so that a
`ZeroDivisionError`, were one reachable, would surface as `.error ()`. -/

/-- `avg_engagement_estimate` as both variants compute it. -/
def avgEngEstimate (posts : List PostStat) : Except Unit (Option ℚ) :=
  let valid := posts.filterMap (fun p => p.engagement)
  if valid.length ≠ 0 then do
    let q ← pyDiv (valid.foldl (· + ·) 0) ((valid.length : ℚ))
    .ok (some q)
  else .ok none

/-- `avg_like_estimate` as both variants compute it: `None` values coerced to
`0`, divided by the number of *all* sampled posts. -/
def avgLikeEstimate (posts : List PostStat) : Except Unit (Option ℚ) :=
  if posts.length ≠ 0 then do
    let q ← pyDiv ((posts.foldl (fun a p => a + p.likes.getD 0) (0 : Int) : Int) : ℚ)
      ((posts.length : ℚ))
    .ok (some q)
  else .ok none

/-- `avg_comment_estimate` as both variants compute it. -/
def avgCommentEstimate (posts : List PostStat) : Except Unit (Option ℚ) :=
  if posts.length ≠ 0 then do
    let q ← pyDiv ((posts.foldl (fun a p => a + p.comments.getD 0) (0 : Int) : Int) : ℚ)
      ((posts.length : ℚ))
    .ok (some q)
  else .ok none

/-- The three derived averages of a run. -/
def aggregateAverages (posts : List PostStat) :
    Except Unit (Option ℚ × Option ℚ × Option ℚ) := do
  let e ← avgEngEstimate posts
  let l ← avgLikeEstimate posts
  let c ← avgCommentEstimate posts
  .ok (l, c, e)

/-- Modelled from the spec: the arithmetic mean over the non-null values of a
metric, null when no value is non-null (§3 `RunResult`, "each the arithmetic
mean over posts with a non-null value, or null if no post yields one").
Stated for refinement comparison against the code's averages. -/
def specMeanNonNull (vals : List (Option ℚ)) : Option ℚ :=
  let xs := vals.filterMap id
  if xs.length = 0 then none else some (xs.foldl (· + ·) 0 / (xs.length : ℚ))

/-- The amended description of `avg_like_estimate`/`avg_comment_estimate`:
nulls coerced to `0`, mean over all sampled posts, null exactly when the post
list is empty. -/
def coercedMeanAll (vals : List (Option Int)) : Option ℚ :=
  if vals.length = 0 then none
  else some (((vals.foldl (fun a v => a + v.getD 0) (0 : Int) : Int) : ℚ) / (vals.length : ℚ))

/-! ## CLI argument check

Scripts variant lines 147-150: missing URL prints a usage line and calls
`sys.exit(0)`.  Workflow variant lines 157-160: same check, `sys.exit(2)`.
Both checks are the first statement of `__main__`.  The model returns
`some (usageMessage, exitCode)` when the program terminates at this check and
`none` when it proceeds to the scrape. -/

/-- Scripts-variant `__main__` argument check; `argv` includes the program
name, as `sys.argv` does. -/
def scriptsMainArgCheck (argv : List (List Char)) : Option (List Char × Nat) :=
  if argv.length < 2 then
    some (("Usage: python ig_analyze.py <profile_url> <limit_posts>").data, 0)
  else none

/-- Workflow-variant `__main__` argument check. -/
def workflowMainArgCheck (argv : List (List Char)) : Option (List Char × Nat) :=
  if argv.length < 2 then
    some (("Usage: python scripts/ig_analyze.py <profile_url> [limit_posts]").data, 2)
  else none

/-! ## `extract_numbers` (scripts variant, lines 21-25)

    def extract_numbers(s):
        if not s: return None
        m = re.findall(r"([\d,.]+)", s.replace(",", ""))
        if not m: return None
        return int(float(m[0]))

`re.findall` with the class `[\d,.]+` returns the maximal runs of
digit/comma/dot characters; since every comma was removed first, the runs
contain only ASCII digits and dots (`\d` is modelled as ASCII digits).
`float(token)` succeeds exactly when the token holds at least one digit and
at most one dot, and `int(...)` truncates; an invalid token such as `"..."`
makes `float` raise `ValueError`, which `extract_numbers` does not catch. -/

/-- Membership in the regex class `[\d,.]`. -/
def isNumClassChar (c : Char) : Bool :=
  c.isDigit || c = ',' || c = '.'

/-- The maximal runs of `[\d,.]` characters of a string — `re.findall` of the
scripts variant (fuelled recursion; the fuel is the string length, which
always suffices because each step consumes at least one character). -/
def numRunsF : Nat → List Char → List (List Char)
  | 0, _ => []
  | _ + 1, [] => []
  | n + 1, c :: rest =>
    if isNumClassChar c then
      (c :: rest.takeWhile isNumClassChar) :: numRunsF n (rest.dropWhile isNumClassChar)
    else numRunsF n rest

/-- All matches of `([\d,.]+)` in `s`. -/
def numRuns (s : List Char) : List (List Char) :=
  numRunsF s.length s

/-- Value of a digit character. -/
def digitVal (c : Char) : Nat := c.toNat - 48

/-- Natural number denoted by a digit run. -/
def digitsToNat (ds : List Char) : Nat :=
  ds.foldl (fun a c => a * 10 + digitVal c) 0

/-- Python `float(t)` for a token drawn from the class `[\d,.]`: defined (as an
exact rational) when the token has no comma, at most one dot and at least one
digit; otherwise `float` raises `ValueError`. -/
def pyFloatOfToken (t : List Char) : Except Unit ℚ :=
  if t.count ',' = 0 ∧ t.count '.' ≤ 1 ∧ t.any Char.isDigit then
    let intPart := t.takeWhile (· ≠ '.')
    let fracPart := (t.dropWhile (· ≠ '.')).drop 1
    .ok ((digitsToNat intPart : ℚ) + (digitsToNat fracPart : ℚ) / ((10 : ℚ) ^ fracPart.length))
  else .error ()

/-- `extract_numbers` of the scripts variant.  `int(float(x))` truncates the
(non-negative) float to its integer part. -/
def extract_numbers (s : List Char) : Except Unit (Option Int) :=
  if s = [] then .ok none
  else
    match numRuns (s.filter (· ≠ ',')) with
    | [] => .ok none
    | t :: _ => do
      let q ← pyFloatOfToken t
      .ok (some q.floor)

/-! ## JSON values

`json.loads` output is modelled by `JValue`; Python `None` and JSON `null`
are both `JValue.null` (Python maps JSON `null` to `None`). -/

/-- A parsed JSON value / the Python object it deserializes to. -/
inductive JValue where
  | null : JValue
  | jbool : Bool → JValue
  | num : ℚ → JValue
  | str : List Char → JValue
  | arr : List JValue → JValue
  | obj : List (List Char × JValue) → JValue

/-- Python truthiness of a deserialized value (`bool(v)`). -/
def pyTruthy : JValue → Bool
  | .null => false
  | .jbool b => b
  | .num q => q != 0
  | .str s => !s.isEmpty
  | .arr xs => !xs.isEmpty
  | .obj kvs => !kvs.isEmpty

/-- Python `a or b` on deserialized values. -/
def pyOr (a b : JValue) : JValue :=
  if pyTruthy a then a else b

/-- Python `a or B` where evaluating the expression `B` may raise: `B` is
only evaluated — and can only raise — when `a` is falsy (short-circuit). -/
def pyOrEval (a : JValue) (b : Except Unit JValue) : Except Unit JValue :=
  if pyTruthy a then .ok a else b

/-- Key lookup in a parsed JSON object (the parser below keeps keys unique,
as a Python `dict` does). -/
def jLookup : List (List Char × JValue) → List Char → Option JValue
  | [], _ => none
  | (k, v) :: rest, key => if k = key then some v else jLookup rest key

/-- Python `v.get(key, default)`: raises `AttributeError` when `v` is not a
dict. -/
def pyGetD : JValue → List Char → JValue → Except Unit JValue
  | .obj kvs, k, d => .ok ((jLookup kvs k).getD d)
  | _, _, _ => .error ()

/-- Python `v[0]`: the first element of a list, `IndexError` on an empty list.
Indexing a non-list either raises (`dict`/`int`) or yields a value on which
the next `.get` raises (`str`), so within the surrounding `try/except` both
are the same caught-exception outcome; the model raises. -/
def pyIndex0 : JValue → Except Unit JValue
  | .arr (x :: _) => .ok x
  | _ => .error ()

/-! ## A JSON parser modelling `json.loads`

Strict JSON: `null`/`true`/`false`, numbers (no leading zeros, optional
fraction and exponent, exact value in `ℚ`), strings with the standard escapes,
arrays and objects.  Duplicate object keys follow Python `dict` semantics:
the later value replaces the earlier one, the key keeps its first position.
A failed parse is `none` (`json.loads` raises `ValueError`, which every caller
in the source catches and treats as "skip this blob").  Recursion is fuelled;
the fuel chosen by `jsonParse` always dominates the input length. -/

/-- JSON whitespace accepted between tokens by `json.loads`. -/
def isJsonWS (c : Char) : Bool :=
  c = ' ' || c = '\t' || c = '\n' || c = '\r'

/-- Hex digit value, if any. -/
def hexVal (c : Char) : Option Nat :=
  if c.isDigit then some (c.toNat - 48)
  else if 'a' ≤ c ∧ c ≤ 'f' then some (c.toNat - 87)
  else if 'A' ≤ c ∧ c ≤ 'F' then some (c.toNat - 55)
  else none

/-- Body of a JSON string after the opening quote: returns the decoded
characters and the suffix after the closing quote.  Raw control characters
are rejected, escapes are the JSON ones (`\uXXXX` decoded as a code point). -/
def parseStrBody : Nat → List Char → Option (List Char × List Char)
  | 0, _ => none
  | _ + 1, [] => none
  | n + 1, c :: rest =>
    if c = '"' then some ([], rest)
    else if c = '\\' then
      match rest with
      | [] => none
      | e :: r =>
        if e = 'u' then
          match r with
          | h1 :: h2 :: h3 :: h4 :: r2 => do
            let a ← hexVal h1
            let b ← hexVal h2
            let c2 ← hexVal h3
            let d ← hexVal h4
            let (cs, r3) ← parseStrBody n r2
            some (Char.ofNat (((a * 16 + b) * 16 + c2) * 16 + d) :: cs, r3)
          | _ => none
        else do
          let dec ←
            if e = '"' then some '"'
            else if e = '\\' then some '\\'
            else if e = '/' then some '/'
            else if e = 'n' then some '\n'
            else if e = 't' then some '\t'
            else if e = 'r' then some '\r'
            else if e = 'b' then some (Char.ofNat 8)
            else if e = 'f' then some (Char.ofNat 12)
            else none
          let (cs, r2) ← parseStrBody n r
          some (dec :: cs, r2)
    else if c.toNat < 32 then none
    else do
      let (cs, r2) ← parseStrBody n rest
      some (c :: cs, r2)

/-- A JSON number starting at `s`: grammar
`-? (0 | [1-9][0-9]*) (. [0-9]+)? ([eE] [+-]? [0-9]+)?`, value taken exactly
in `ℚ`. -/
def parseNumber (s : List Char) : Option (ℚ × List Char) :=
  let (neg, s1) := match s with
    | '-' :: r => (true, r)
    | _ => (false, s)
  match s1 with
  | [] => none
  | c :: _ =>
    if !c.isDigit then none
    else
      let intDigits := if c = '0' then ['0'] else s1.takeWhile Char.isDigit
      let r1 := s1.drop intDigits.length
      let (fracDigits, r2) := match r1 with
        | '.' :: rf =>
          (rf.takeWhile Char.isDigit, rf.drop (rf.takeWhile Char.isDigit).length)
        | _ => ([], r1)
      let fracOk := match r1 with
        | '.' :: _ => !fracDigits.isEmpty
        | _ => true
      if !fracOk then none
      else
        let hasExp := match r2 with
          | 'e' :: _ => true
          | 'E' :: _ => true
          | _ => false
        let (expOk, expVal, r4) :=
          if hasExp then
            let r3 := r2.drop 1
            let (esign, r3b) := match r3 with
              | '+' :: rr => ((1 : Int), rr)
              | '-' :: rr => ((-1 : Int), rr)
              | _ => ((1 : Int), r3)
            let eDigits := r3b.takeWhile Char.isDigit
            if eDigits.isEmpty then (false, (0 : Int), r3b)
            else (true, esign * (digitsToNat eDigits : Int), r3b.drop eDigits.length)
          else (true, (0 : Int), r2)
        if !expOk then none
        else
          -- For an integer literal (no fraction, no exponent) the general
          -- formula below equals a plain cast; the cast branch is taken so
          -- that the value is a normal form the kernel can compute with.
          let mag : ℚ :=
            if fracDigits.isEmpty ∧ expVal = 0 then ((digitsToNat intDigits : Nat) : ℚ)
            else
              ((digitsToNat intDigits : ℚ) +
                (digitsToNat fracDigits : ℚ) / ((10 : ℚ) ^ fracDigits.length)) *
                ((10 : ℚ) ^ expVal)
          some (if neg then -mag else mag, r4)

/-- Insert a key/value pair into an object under construction with Python
`dict` semantics: replace in place when the key exists, append otherwise. -/
def insertKV : List (List Char × JValue) → List Char → JValue → List (List Char × JValue)
  | [], k, v => [(k, v)]
  | (k0, v0) :: rest, k, v =>
    if k0 = k then (k0, v) :: rest else (k0, v0) :: insertKV rest k v

mutual

/-- One JSON value with leading whitespace, returning the remaining suffix. -/
def parseVal : Nat → List Char → Option (JValue × List Char)
  | 0, _ => none
  | n + 1, s0 =>
    let s := s0.dropWhile isJsonWS
    match s with
    | [] => none
    | c :: rest =>
      if c = '"' then
        match parseStrBody (rest.length + 1) rest with
        | some (cs, r) => some (.str cs, r)
        | none => none
      else if c = lbrace then
        let r1 := rest.dropWhile isJsonWS
        match r1 with
        | d :: r2 =>
          if d = rbrace then some (.obj [], r2)
          else
            match parseObjItems n r1 [] with
            | some (kvs, r) => some (.obj kvs, r)
            | none => none
        | [] => none
      else if c = '[' then
        let r1 := rest.dropWhile isJsonWS
        match r1 with
        | ']' :: r2 => some (.arr [], r2)
        | _ :: _ =>
          match parseArrItems n r1 [] with
          | some (xs, r) => some (.arr xs, r)
          | none => none
        | [] => none
      else if c = 't' then
        match expectLit ("rue").data rest with
        | some r => some (.jbool true, r)
        | none => none
      else if c = 'f' then
        match expectLit ("alse").data rest with
        | some r => some (.jbool false, r)
        | none => none
      else if c = 'n' then
        match expectLit ("ull").data rest with
        | some r => some (.null, r)
        | none => none
      else
        match parseNumber s with
        | some (q, r) => some (.num q, r)
        | none => none

/-- Members of an object after the opening brace (first member pending). -/
def parseObjItems : Nat → List Char → List (List Char × JValue) →
    Option (List (List Char × JValue) × List Char)
  | 0, _, _ => none
  | n + 1, s0, acc =>
    let s := s0.dropWhile isJsonWS
    match s with
    | '"' :: rest => do
      let (key, r1) ← parseStrBody (rest.length + 1) rest
      let r2 := r1.dropWhile isJsonWS
      match r2 with
      | ':' :: r3 => do
        let (v, r4) ← parseVal n r3
        let acc2 := insertKV acc key v
        let r5 := r4.dropWhile isJsonWS
        match r5 with
        | ',' :: r6 => parseObjItems n r6 acc2
        | d :: r6 => if d = rbrace then some (acc2, r6) else none
        | [] => none
      | _ => none
    | _ => none

/-- Elements of an array after the opening bracket (first element pending). -/
def parseArrItems : Nat → List Char → List JValue →
    Option (List JValue × List Char)
  | 0, _, _ => none
  | n + 1, s, acc => do
    let (v, r1) ← parseVal n s
    let r2 := r1.dropWhile isJsonWS
    match r2 with
    | ',' :: r3 => parseArrItems n r3 (acc ++ [v])
    | ']' :: r3 => some (acc ++ [v], r3)
    | _ => none

end

/-- `json.loads`: parse one value and require only whitespace after it;
`none` models the raised `ValueError`. -/
def jsonParse (s : List Char) : Option JValue :=
  match parseVal (2 * s.length + 2) s with
  | some (v, rest) => if rest.dropWhile isJsonWS = [] then some v else none
  | none => none

/-! ## The JSON-blob regex patterns (workflow variant, lines 8-25)

    JSON_PATTERNS = [
        r"window\._sharedData\s*=\s*(\x7b.*?\x7d);</script>",
        r"\"deployment_stage\":.*?(\x7b.*?\"__typename\":\"GraphProfile.*?\x7d)",
        r"<script type=\"application/json\"[^>]*>(\\\x7b.*?\\\x7d)</script>",
    ]

searched with `re.finditer(pat, html, re.S | re.I)`.  Each pattern is compiled
by hand into a matcher `List Char → Option (capture, rest-after-match)`; with
`re.S` the dot crosses newlines, and every `.*?` here is non-greedy and
followed by a fixed literal, so a minimal match is found by scanning for the
earliest occurrence of that literal.  `re.I` makes literal characters match
case-insensitively (modelled with `Char.toLower`).  `re.finditer` yields
non-overlapping matches scanning left to right: try each start position in
order and resume after the end of a match. -/

/-- Case-insensitive literal prefix match (a literal under `re.I`); returns
the remaining suffix. -/
def expectCI : List Char → List Char → Option (List Char)
  | [], s => some s
  | _ :: _, [] => none
  | p :: ps, c :: cs => if p.toLower = c.toLower then expectCI ps cs else none

/-- Split at the earliest suffix that starts with the literal `pat`
(case-insensitively): `some (before, suffixStartingWithPat)`. -/
def splitAtFirstCI (pat : List Char) : List Char → Option (List Char × List Char)
  | [] => if (expectCI pat []).isSome then some ([], []) else none
  | c :: cs =>
    if (expectCI pat (c :: cs)).isSome then some ([], c :: cs)
    else
      match splitAtFirstCI pat cs with
      | some (pre, suf) => some (c :: pre, suf)
      | none => none

/-- Python `\s` whitespace (ASCII part). -/
def isPySpace (c : Char) : Bool :=
  c = ' ' || c = '\t' || c = '\n' || c = '\r' || c = Char.ofNat 11 || c = Char.ofNat 12

/-- Matcher for pattern 1, `window\._sharedData\s*=\s*(\x7b.*?\x7d);</script>`,
anchored at the start of `s`: the literal, optional whitespace, `=`, optional
whitespace, then a brace-delimited capture ending at the earliest
`\x7d;</script>`. -/
def matchP1At (s : List Char) : Option (List Char × List Char) := do
  let s1 ← expectCI ("window._sharedData").data s
  let s2 := s1.dropWhile isPySpace
  let s3 ← expectLit ("=").data s2
  let s4 := s3.dropWhile isPySpace
  match s4 with
  | c :: rest =>
    if c = lbrace then do
      let stop := rbrace :: (";</script>").data
      let (mid, suf) ← splitAtFirstCI stop rest
      some (lbrace :: (mid ++ [rbrace]), suf.drop stop.length)
    else none
  | [] => none

/-- Matcher for pattern 2,
`"deployment_stage":.*?(\x7b.*?"__typename":"GraphProfile.*?\x7d)`, anchored at
the start of `s`.  Every `.*?` is non-greedy and followed by a fixed literal,
so the capture runs from the earliest `\x7b` after the anchor to the earliest
`\x7d` after the earliest following `"__typename":"GraphProfile`; the capture
is rebuilt from the original (not lower-cased) text. -/
def matchP2At (s : List Char) : Option (List Char × List Char) := do
  let s1 ← expectCI ("\"deployment_stage\":").data s
  let (_, atBrace) ← splitAtFirstCI [lbrace] s1
  let inner := atBrace.drop 1
  let tyLit := ("\"__typename\":\"GraphProfile").data
  let (mid1, atTy) ← splitAtFirstCI tyLit inner
  let tyOrig := atTy.take tyLit.length
  let afterTy := atTy.drop tyLit.length
  let (mid2, atClose) ← splitAtFirstCI [rbrace] afterTy
  some (lbrace :: (mid1 ++ tyOrig ++ mid2 ++ [rbrace]), atClose.drop 1)

/-- Matcher for pattern 3,
`<script type="application/json"[^>]*>(\\\x7b.*?\\\x7d)</script>`, anchored at
the start of `s`.  `[^>]*` is greedy but cannot cross `>`, so it is the run of
non-`>` characters before the next `>`. -/
def matchP3At (s : List Char) : Option (List Char × List Char) := do
  let s1 ← expectCI ("<script type=\"application/json\"").data s
  let s2 := s1.dropWhile (fun c => c ≠ '>')
  match s2 with
  | '>' :: s3 =>
    match s3 with
    | c :: rest =>
      if c = lbrace then do
        let stop := rbrace :: ("</script>").data
        let (mid, suf) ← splitAtFirstCI stop rest
        some (lbrace :: (mid ++ [rbrace]), suf.drop stop.length)
      else none
    | [] => none
  | _ => none

/-- `re.finditer` over a hand-compiled matcher: scan left to right, emit each
match's capture group and resume after the match (fuelled by the string
length; every match consumes at least one character). -/
def finditerAux (m : List Char → Option (List Char × List Char)) :
    Nat → List Char → List (List Char)
  | 0, _ => []
  | _ + 1, [] => []
  | n + 1, s@(_ :: cs) =>
    match m s with
    | some (cap, rest) => cap :: finditerAux m n rest
    | none => finditerAux m n cs

/-- All capture groups of a pattern in `html`, in match order. -/
def finditerAll (m : List Char → Option (List Char × List Char))
    (html : List Char) : List (List Char) :=
  finditerAux m html.length html

/-- The `</script>`-suffix strip applied to each captured text before
`json.loads` (never triggered by these captures, which end in `\x7d`, but part
of the source). -/
def stripTrailingScriptTag (t : List Char) : List Char :=
  if (("</script>").data).isSuffixOf t then t.take (t.length - 9) else t

/-- `find_json_blobs` (workflow variant, lines 14-25): for each pattern in
order, for each match in order, parse the capture as JSON; parse failures are
swallowed (`except Exception: pass`) and the blob skipped. -/
def find_json_blobs (html : List Char) : List JValue :=
  (finditerAll matchP1At html ++ finditerAll matchP2At html ++
      finditerAll matchP3At html).filterMap
    (fun t => jsonParse (stripTrailingScriptTag t))

/-! ## Profile-count extraction (workflow variant, lines 27-43)

For each blob `b`, inside a `try`:

    user = b.get("entry_data", \x7b\x7d).get("ProfilePage", [\x7b\x7d])[0]
            .get("graphql", \x7b\x7d).get("user", \x7b\x7d)
    if user:
        followers = followers or user.get("edge_followed_by", \x7b\x7d).get("count")
        following = following or user.get("edge_follow", \x7b\x7d).get("count")
        posts     = posts     or user.get("edge_owner_to_timeline_media", \x7b\x7d).get("count")

The three assignments run sequentially: an exception raised while computing a
later line keeps the updates already made by earlier lines. -/

/-- The result dict of `extract_profile_counts` (annotated
`Dict[str, Optional[int]]` in the source; values are whatever the blobs hold,
with `JValue.null` standing for Python `None`). -/
structure ProfileCounts where
  followers : JValue
  following : JValue
  posts : JValue

/-- The `user` chain of `extract_profile_counts`. -/
def userOf (b : JValue) : Except Unit JValue := do
  let e ← pyGetD b ("entry_data").data (.obj [])
  let pp ← pyGetD e ("ProfilePage").data (.arr [.obj []])
  let p0 ← pyIndex0 pp
  let g ← pyGetD p0 ("graphql").data (.obj [])
  pyGetD g ("user").data (.obj [])

/-- `user.get(key, \x7b\x7d).get("count")` — the per-field value read. -/
def getCount (user : JValue) (key : List Char) : Except Unit JValue := do
  let a ← pyGetD user key (.obj [])
  pyGetD a ("count").data .null

/-- Processing of one blob inside `extract_profile_counts`, with the partial
updates an exception leaves behind. -/
def profileStep (acc : ProfileCounts) (b : JValue) : ProfileCounts :=
  match userOf b with
  | .error _ => acc
  | .ok user =>
    if pyTruthy user then
      match pyOrEval acc.followers (getCount user ("edge_followed_by").data) with
      | .error _ => acc
      | .ok v1 =>
        let acc1 : ProfileCounts := { acc with followers := v1 }
        match pyOrEval acc1.following (getCount user ("edge_follow").data) with
        | .error _ => acc1
        | .ok v2 =>
          let acc2 : ProfileCounts := { acc1 with following := v2 }
          match pyOrEval acc2.posts (getCount user ("edge_owner_to_timeline_media").data) with
          | .error _ => acc2
          | .ok v3 => { acc2 with posts := v3 }
    else acc

/-- `extract_profile_counts` (workflow variant): fold the blobs starting from
all-`None`. -/
def extract_profile_counts (blobs : List JValue) : ProfileCounts :=
  blobs.foldl profileStep ⟨.null, .null, .null⟩

/-- The profile extractor of the workflow variant at the HTML level:
`extract_profile_counts(find_json_blobs(html))` as called in `scrape_profile`
(line 102-103). -/
def extractProfileFromHtml (html : List Char) : ProfileCounts :=
  extract_profile_counts (find_json_blobs html)

/-! ## Like/comment extraction (workflow variant, lines 58-79) -/

/-- The result dict of `extract_like_comment_from_post_html`. -/
structure LikeComment where
  likes : JValue
  comments : JValue

/-- The `media` chain of `extract_like_comment_from_post_html`. -/
def mediaOf (b : JValue) : Except Unit JValue := do
  let e ← pyGetD b ("entry_data").data (.obj [])
  let pp ← pyGetD e ("PostPage").data (.arr [.obj []])
  let p0 ← pyIndex0 pp
  let g ← pyGetD p0 ("graphql").data (.obj [])
  pyGetD g ("shortcode_media").data (.obj [])

/-- Processing of one blob inside `extract_like_comment_from_post_html`
(sequential partial updates as in `profileStep`). -/
def lcStep (acc : LikeComment) (b : JValue) : LikeComment :=
  match mediaOf b with
  | .error _ => acc
  | .ok media =>
    if pyTruthy media then
      match pyOrEval acc.likes (getCount media ("edge_media_preview_like").data) with
      | .error _ => acc
      | .ok v1 =>
        let acc1 : LikeComment := { acc with likes := v1 }
        match pyOrEval acc1.comments (getCount media ("edge_media_to_parent_comment").data) with
        | .error _ => acc1
        | .ok v2 => { acc1 with comments := v2 }
    else acc

/-- Matcher for the fallback pattern
`"KEY":\s*\\\x7b"count":\s*(\d+)\\\x7d` (case-sensitive, used by `re.search` on
lines 74 and 77), anchored at the start of `s`; yields the captured digits. -/
def matchCountAt (key : List Char) (s : List Char) : Option (Nat × List Char) := do
  let s1 ← expectLit ('"' :: (key ++ ('"' :: (":").data))) s
  let s2 := s1.dropWhile isPySpace
  let s3 ← expectLit (lbrace :: ("\"count\":").data) s2
  let s4 := s3.dropWhile isPySpace
  let digits := s4.takeWhile Char.isDigit
  if digits.isEmpty then none
  else
    match s4.drop digits.length with
    | c :: rest => if c = rbrace then some (digitsToNat digits, rest) else none
    | [] => none

/-- `re.search` for the fallback pattern: the leftmost match, if any
(fuelled left-to-right scan). -/
def searchCountAux (key : List Char) : Nat → List Char → Option Nat
  | 0, _ => none
  | _ + 1, [] => none
  | n + 1, s@(_ :: cs) =>
    match matchCountAt key s with
    | some (v, _) => some v
    | none => searchCountAux key n cs

/-- Leftmost `"KEY": \x7b"count": N\x7d` occurrence in `html`. -/
def searchCount (key : List Char) (html : List Char) : Option Nat :=
  searchCountAux key html.length html

/-- `extract_like_comment_from_post_html` (workflow variant): fold the blobs,
then the regex fallbacks guarded by `is None` checks (`0` does not trigger the
fallback; JSON `null` — Python `None` — does). -/
def extract_like_comment_from_post_html (html : List Char) : LikeComment :=
  let r := (find_json_blobs html).foldl lcStep ⟨.null, .null⟩
  let likes :=
    match r.likes with
    | .null =>
      match searchCount ("edge_media_preview_like").data html with
      | some n => .num n
      | none => .null
    | v => v
  let comments :=
    match r.comments with
    | .null =>
      match searchCount ("edge_media_to_parent_comment").data html with
      | some n => .num n
      | none => .null
    | v => v
  ⟨likes, comments⟩

/-! ## Run results and `summary.json` (claim C9)

`scrape_profile` returns the result dict (workflow variant lines 131-141,
scripts variant lines 111-121) and `save_reports` writes
`json.dumps(result, indent=2)` to `summary.json`.  The text layer is modelled
at the JSON-value level: for `None`, `int` and `str` fields `json.dumps`
followed by `json.loads` is the identity on the value, and for `float` fields
Python serializes with `repr`, whose shortest-round-trip guarantee makes the
write/parse pair the identity on the float as well (the decimal text of a
binary float is the floating-point layer proper and is not re-modelled here).
`encodeRun` is the JSON value `json.dumps` serializes, `decodeRun` reads the
fields back from a parsed JSON value. -/

/-- The result dict of `scrape_profile`, typed per the source annotations. -/
structure RunResult where
  profile_url : List Char
  followers : Option Int
  following : Option Int
  posts_total : Option Int
  posts_sampled : Nat
  avg_like_estimate : Option ℚ
  avg_comment_estimate : Option ℚ
  avg_engagement_estimate : Option ℚ
  posts : List PostStat
deriving DecidableEq

/-- JSON value of an optional int (`None` serializes as `null`). -/
def jOfOptInt : Option Int → JValue
  | none => .null
  | some n => .num (n : ℚ)

/-- JSON value of an optional float. -/
def jOfOptQ : Option ℚ → JValue
  | none => .null
  | some q => .num q

/-- The JSON object `json.dumps` writes for one post record (`asdict(p)` of
the workflow dataclass / the scripts-variant dict, same key order). -/
def encodePost (p : PostStat) : JValue :=
  .obj [(("url").data, .str p.url),
        (("likes").data, jOfOptInt p.likes),
        (("comments").data, jOfOptInt p.comments),
        (("engagement").data, jOfOptQ p.engagement)]

/-- The JSON object `json.dumps` writes for the whole run result, keys in the
order of the source's return dict. -/
def encodeRun (r : RunResult) : JValue :=
  .obj [(("profile_url").data, .str r.profile_url),
        (("followers").data, jOfOptInt r.followers),
        (("following").data, jOfOptInt r.following),
        (("posts_total").data, jOfOptInt r.posts_total),
        (("posts_sampled").data, .num (r.posts_sampled : ℚ)),
        (("avg_like_estimate").data, jOfOptQ r.avg_like_estimate),
        (("avg_comment_estimate").data, jOfOptQ r.avg_comment_estimate),
        (("avg_engagement_estimate").data, jOfOptQ r.avg_engagement_estimate),
        (("posts").data, .arr (r.posts.map encodePost))]

/-- Field read from a parsed JSON object. -/
def jField (v : JValue) (k : List Char) : Option JValue :=
  match v with
  | .obj kvs => jLookup kvs k
  | _ => none

/-- Read back an optional int (`null` or an integral number). -/
def decodeOptInt : JValue → Option (Option Int)
  | .null => some none
  | .num q => if q.den = 1 then some (some q.num) else none
  | _ => none

/-- Read back an optional float. -/
def decodeOptQ : JValue → Option (Option ℚ)
  | .null => some none
  | .num q => some (some q)
  | _ => none

/-- Read back a string. -/
def decodeStr : JValue → Option (List Char)
  | .str s => some s
  | _ => none

/-- Read back a non-negative integer. -/
def decodeNat : JValue → Option Nat
  | .num q => if q.den = 1 ∧ 0 ≤ q.num then some q.num.toNat else none
  | _ => none

/-- Read back one post record from parsed `summary.json`. -/
def decodePost (v : JValue) : Option PostStat := do
  let u ← jField v ("url").data
  let us ← decodeStr u
  let l ← jField v ("likes").data
  let ls ← decodeOptInt l
  let c ← jField v ("comments").data
  let cs ← decodeOptInt c
  let e ← jField v ("engagement").data
  let es ← decodeOptQ e
  some ⟨us, ls, cs, es⟩

/-- Read back a named string field. -/
def decodeFieldStr (v : JValue) (k : List Char) : Option (List Char) :=
  match jField v k with
  | some w => decodeStr w
  | none => none

/-- Read back a named optional-int field. -/
def decodeFieldOptInt (v : JValue) (k : List Char) : Option (Option Int) :=
  match jField v k with
  | some w => decodeOptInt w
  | none => none

/-- Read back a named optional-float field. -/
def decodeFieldOptQ (v : JValue) (k : List Char) : Option (Option ℚ) :=
  match jField v k with
  | some w => decodeOptQ w
  | none => none

/-- Read back a named non-negative-integer field. -/
def decodeFieldNat (v : JValue) (k : List Char) : Option Nat :=
  match jField v k with
  | some w => decodeNat w
  | none => none

/-- Read back the post list from the `posts` field. -/
def decodeFieldPosts (v : JValue) : Option (List PostStat) :=
  match jField v ("posts").data with
  | some (.arr xs) => xs.mapM decodePost
  | _ => none

/-- Read back the whole run result from parsed `summary.json`. -/
def decodeRun (v : JValue) : Option RunResult :=
  match decodeFieldStr v ("profile_url").data,
        decodeFieldOptInt v ("followers").data,
        decodeFieldOptInt v ("following").data,
        decodeFieldOptInt v ("posts_total").data,
        decodeFieldNat v ("posts_sampled").data,
        decodeFieldOptQ v ("avg_like_estimate").data,
        decodeFieldOptQ v ("avg_comment_estimate").data,
        decodeFieldOptQ v ("avg_engagement_estimate").data,
        decodeFieldPosts v with
  | some pu, some fo, some fg, some pt, some ps, some al, some ac, some ae, some posts =>
    some ⟨pu, fo, fg, pt, ps, al, ac, ae, posts⟩
  | _, _, _, _, _, _, _, _, _ => none

/-! ## Miscellaneous -/

/-- `pat` occurs as a contiguous substring of `s`. -/
def hasSubstr (pat : List Char) : List Char → Bool
  | [] => (expectLit pat []).isSome
  | c :: cs => (expectLit pat (c :: cs)).isSome || hasSubstr pat cs

/-- A profile page whose follower count appears only as the bare substring
`"edge_followed_by":\x7b"count":1500\x7d`, outside every embedded-JSON pattern
the extractor knows. -/
def c8BareHtml : List Char :=
  ("<html><body>\"edge_followed_by\":\x7b\"count\":1500\x7d</body></html>").data

/-- A profile page carrying the same substring inside a parseable
`<script type="application/json">` blob at the nested path the extractor
walks. -/
def c8GoodHtml : List Char :=
  ("<html><script type=\"application/json\">\x7b\"entry_data\":\x7b\"ProfilePage\":[\x7b\"graphql\":\x7b\"user\":\x7b\"edge_followed_by\":\x7b\"count\":1500\x7d\x7d\x7d\x7d]\x7d\x7d</script></html>").data

/-- The parsed blob of `c8GoodHtml`. -/
def c8Blob : JValue :=
  .obj [(("entry_data").data,
    .obj [(("ProfilePage").data,
      .arr [.obj [(("graphql").data,
        .obj [(("user").data,
          .obj [(("edge_followed_by").data,
            .obj [(("count").data, .num 1500)])])])]])])]

/-! # Theorems -/

/-- Deduplication only ever drops elements: the output is a sublist (hence
order-preserving) of the input. -/
theorem dedupAux_sublist (l : List (List Char)) :
    ∀ seen, List.Sublist (dedupAux l seen) l := by
  induction l with
  | nil => intro seen; simp [dedupAux]
  | cons x xs ih =>
    intro seen
    by_cases h : x ∈ seen
    · simp only [dedupAux, if_pos h]
      exact List.Sublist.cons x (ih seen)
    · simp only [dedupAux, if_neg h]
      exact List.Sublist.cons₂ x (ih (x :: seen))

/-- Every element deduplication emits was absent from the `seen` set it was
emitted under. -/
theorem mem_dedupAux (l : List (List Char)) :
    ∀ seen y, y ∈ dedupAux l seen → y ∉ seen := by
  induction l with
  | nil => intro seen y h; simp [dedupAux] at h
  | cons x xs ih =>
    intro seen y hy
    by_cases h : x ∈ seen
    · rw [dedupAux, if_pos h] at hy
      exact ih seen y hy
    · rw [dedupAux, if_neg h] at hy
      rcases List.mem_cons.mp hy with rfl | hy2
      · exact h
      · intro hseen
        exact ih (x :: seen) y hy2 (List.mem_cons_of_mem x hseen)

/-- The deduplicated list has no duplicates. -/
theorem dedupAux_nodup (l : List (List Char)) :
    ∀ seen, (dedupAux l seen).Nodup := by
  induction l with
  | nil => intro seen; simp [dedupAux]
  | cons x xs ih =>
    intro seen
    by_cases h : x ∈ seen
    · rw [dedupAux, if_pos h]; exact ih seen
    · rw [dedupAux, if_neg h]
      refine List.nodup_cons.mpr ⟨?_, ih (x :: seen)⟩
      intro hx
      exact mem_dedupAux xs (x :: seen) x hx (List.mem_cons_self x seen)

/-- Claim C1: the scripts variant's engagement expression
`(likes or 0 + comments or 0) / followers` parses as
`likes or ((0 + comments) or 0)`, so at the spec's own scenario
(`followers=1000, likes=40, comments=10`) it yields `0.04` — the comments are
ignored — while the workflow variant's parenthesized formula yields the
specified `0.05`.  The code of the scripts variant diverges from the claimed
formula at this input. -/
theorem claim_C1_engagement_precedence_bug :
    scriptsEngagement (some 1000) (some 40) (some 10) = .ok (some (1 / 25)) ∧
    engagementW 1000 (some 40) (some 10) = some (1 / 20) ∧
    (1 : ℚ) / 25 ≠ 1 / 20 := by
  refine ⟨?_, ?_, by norm_num⟩
  · show Except.ok (some ((40 : ℚ) / 1000)) = Except.ok (some (1 / 25))
    norm_num
  · show some (((40 + 10 : Int) : ℚ) / (1000 : ℚ)) = some (1 / 20)
    norm_num

/-- Claim C3 counterexample: invoked without the profile-URL argument, the
scripts variant prints its usage line but exits with status `0`, which is not
a non-zero status. -/
theorem claim_C3_counterexample :
    (scriptsMainArgCheck [("ig_analyze.py").data]).map Prod.snd = some 0 ∧
    ¬ (0 : Nat) ≠ 0 :=
  ⟨rfl, fun h => h rfl⟩

/-- Claim C3 (amended): with the URL argument absent, both variants print a
usage message and terminate before any other work, the workflow variant with
the non-zero status `2` but the scripts variant with status `0`. -/
theorem claim_C3_usage_exit (argv : List (List Char)) (h : argv.length < 2) :
    workflowMainArgCheck argv =
      some (("Usage: python scripts/ig_analyze.py <profile_url> [limit_posts]").data, 2) ∧
    (2 : Nat) ≠ 0 ∧
    scriptsMainArgCheck argv =
      some (("Usage: python ig_analyze.py <profile_url> <limit_posts>").data, 0) := by
  refine ⟨?_, by decide, ?_⟩
  · rw [workflowMainArgCheck, if_pos h]
  · rw [scriptsMainArgCheck, if_pos h]

/-- Witness for `claim_C3_usage_exit` at the one-element argv. -/
theorem claim_C3_usage_exit_witness :
    workflowMainArgCheck [("ig_analyze.py").data] =
      some (("Usage: python scripts/ig_analyze.py <profile_url> [limit_posts]").data, 2) ∧
    (2 : Nat) ≠ 0 ∧
    scriptsMainArgCheck [("ig_analyze.py").data] =
      some (("Usage: python ig_analyze.py <profile_url> <limit_posts>").data, 0) :=
  claim_C3_usage_exit [("ig_analyze.py").data] (by decide)

/-- Claim C7: aggregation over an empty post list yields null for all three
averages; the `Except.ok` result records that no division error (modelled by
`pyDiv`) is raised. -/
theorem claim_C7_empty_aggregation :
    aggregateAverages [] = .ok (none, none, none) := rfl

/-- For a non-negative limit the collector returns at most `limit` entries. -/
theorem collector_length_le (hrefs : List (List Char)) (limit : Int) (h : 0 ≤ limit) :
    ((extract_recent_post_urls hrefs limit).length : Int) ≤ limit := by
  rw [extract_recent_post_urls, pySliceTo, if_pos h]
  have h1 : ((dedupFirstSeen (qualifyingLinks hrefs)).take limit.toNat).length ≤ limit.toNat := by
    rw [List.length_take]
    exact min_le_left _ _
  calc ((((dedupFirstSeen (qualifyingLinks hrefs)).take limit.toNat)).length : Int)
      ≤ (limit.toNat : Int) := by exact_mod_cast h1
    _ = limit := Int.toNat_of_nonneg h

/-- Claim C5 counterexample: called with the negative limit `-1`, the
collector keeps all but the last deduplicated entry (Python slice semantics),
so two distinct post links yield a one-element list, which does not satisfy
the claimed `length ≤ limit` bound at `limit = -1`. -/
theorem claim_C5_counterexample :
    (extract_recent_post_urls [("/p/AAA/").data, ("/p/BBB/").data] (-1)).length = 1 ∧
    ¬ (((extract_recent_post_urls [("/p/AAA/").data, ("/p/BBB/").data] (-1)).length : Int) ≤ -1) := by
  constructor
  · decide
  · decide

/-- Claim C5 (amended, `0 ≤ limit`): the collector returns a duplicate-free
list of at most `limit` absolute post URLs that is a sublist — hence in
first-seen order — of the qualifying links in document order; it is a pure
function of the HTML (deterministic); and the spec's scenario holds: three
distinct post links, one duplicated, with limit 12 give exactly the three
absolute URLs in first-seen order. -/
theorem claim_C5_collector (hrefs : List (List Char)) (limit : Int) (h : 0 ≤ limit) :
    (extract_recent_post_urls hrefs limit).Nodup ∧
    ((extract_recent_post_urls hrefs limit).length : Int) ≤ limit ∧
    List.Sublist (extract_recent_post_urls hrefs limit) (qualifyingLinks hrefs) ∧
    extract_recent_post_urls hrefs limit = extract_recent_post_urls hrefs limit ∧
    extract_recent_post_urls
        [("/p/AAA/").data, ("/p/BBB/").data, ("/p/AAA/").data, ("/p/CCC/").data] 12 =
      [igBase ++ ("/p/AAA/").data, igBase ++ ("/p/BBB/").data, igBase ++ ("/p/CCC/").data] := by
  have hslice : extract_recent_post_urls hrefs limit =
      (dedupFirstSeen (qualifyingLinks hrefs)).take limit.toNat := by
    rw [extract_recent_post_urls, pySliceTo, if_pos h]
  refine ⟨?_, collector_length_le hrefs limit h, ?_, rfl, by decide⟩
  · rw [hslice]
    exact List.Nodup.sublist (List.take_sublist _ _) (dedupAux_nodup _ [])
  · rw [hslice]
    exact (List.take_sublist _ _).trans (dedupAux_sublist _ [])

/-- Witness for `claim_C5_collector` at the spec's scenario input. -/
theorem claim_C5_collector_witness :
    (extract_recent_post_urls
        [("/p/AAA/").data, ("/p/BBB/").data, ("/p/AAA/").data, ("/p/CCC/").data] 12).Nodup ∧
    ((extract_recent_post_urls
        [("/p/AAA/").data, ("/p/BBB/").data, ("/p/AAA/").data, ("/p/CCC/").data] 12).length : Int) ≤ 12 ∧
    extract_recent_post_urls
        [("/p/AAA/").data, ("/p/BBB/").data, ("/p/AAA/").data, ("/p/CCC/").data] 12 =
      [igBase ++ ("/p/AAA/").data, igBase ++ ("/p/BBB/").data, igBase ++ ("/p/CCC/").data] := by
  have h := claim_C5_collector
    [("/p/AAA/").data, ("/p/BBB/").data, ("/p/AAA/").data, ("/p/CCC/").data] 12 (by decide)
  exact ⟨h.1, h.2.1, h.2.2.2.2⟩

/-- Claim C10: the collector with `limit = 0` returns the empty list; with a
negative limit it returns the deduplicated link list with its last `|limit|`
elements removed (Python slice semantics) rather than a list of at most
`limit` entries; the claimed length bound holds whenever `0 ≤ limit`, and it
fails at `limit = -2` with two distinct links. -/
theorem claim_C10_limit_semantics (hrefs : List (List Char)) (limit : Int) :
    extract_recent_post_urls hrefs 0 = [] ∧
    (limit < 0 → extract_recent_post_urls hrefs limit =
      (dedupFirstSeen (qualifyingLinks hrefs)).take
        ((dedupFirstSeen (qualifyingLinks hrefs)).length - (-limit).toNat)) ∧
    (0 ≤ limit → ((extract_recent_post_urls hrefs limit).length : Int) ≤ limit) ∧
    ¬ (((extract_recent_post_urls [("/p/AAA/").data, ("/p/BBB/").data] (-2)).length : Int) ≤ -2) := by
  refine ⟨?_, ?_, fun h => collector_length_le hrefs limit h, by decide⟩
  · rw [extract_recent_post_urls, pySliceTo, if_pos (le_refl 0)]
    simp
  · intro hneg
    rw [extract_recent_post_urls, pySliceTo, if_neg (not_le.mpr hneg)]

/-- Witness for `claim_C10_limit_semantics`, read off at `limit = -2` for the
negative-slice clause and `limit = 5` for the bound clause. -/
theorem claim_C10_limit_semantics_witness :
    extract_recent_post_urls [("/p/AAA/").data, ("/p/BBB/").data] 0 = [] ∧
    extract_recent_post_urls [("/p/AAA/").data, ("/p/BBB/").data] (-2) =
      (dedupFirstSeen (qualifyingLinks [("/p/AAA/").data, ("/p/BBB/").data])).take
        ((dedupFirstSeen (qualifyingLinks [("/p/AAA/").data, ("/p/BBB/").data])).length -
          ((-(-2) : Int)).toNat) ∧
    ((extract_recent_post_urls [("/p/AAA/").data, ("/p/BBB/").data] 5).length : Int) ≤ 5 := by
  refine ⟨(claim_C10_limit_semantics [("/p/AAA/").data, ("/p/BBB/").data] (-2)).1,
    (claim_C10_limit_semantics [("/p/AAA/").data, ("/p/BBB/").data] (-2)).2.1 (by decide),
    (claim_C10_limit_semantics [("/p/AAA/").data, ("/p/BBB/").data] 5).2.2.1 (by decide)⟩

/-- Claim C6: in both variants, a post whose fetch outcome is a raised
exception contributes a record with likes, comments and engagement all null,
the output has exactly one record per collected URL, and every position of
the output is the processed image of the same position of the input — a
per-post failure neither aborts the loop nor perturbs other posts. -/
theorem claim_C6_per_post_failure (followersW : Int) (followersS : Option Int)
    (fetches : List (List Char × Except Unit (Option Int × Option Int)))
    (i : Nat) (url : List Char)
    (h : fetches[i]? = some (url, .error ())) :
    (processPostsW followersW fetches).length = fetches.length ∧
    (processPostsW followersW fetches)[i]? = some ⟨url, none, none, none⟩ ∧
    (∀ j : Nat, (processPostsW followersW fetches)[j]? =
      Option.map (fun uf => postRecordW followersW uf.1 uf.2) fetches[j]?) ∧
    (processPostsS followersS fetches).length = fetches.length ∧
    (processPostsS followersS fetches)[i]? = some ⟨url, none, none, none⟩ ∧
    (∀ j : Nat, (processPostsS followersS fetches)[j]? =
      Option.map (fun uf => postRecordS followersS uf.1 uf.2) fetches[j]?) := by
  refine ⟨List.length_map _ _, ?_, ?_, List.length_map _ _, ?_, ?_⟩
  · rw [processPostsW, List.getElem?_map, h]; rfl
  · intro j; rw [processPostsW, List.getElem?_map]
  · rw [processPostsS, List.getElem?_map, h]; rfl
  · intro j; rw [processPostsS, List.getElem?_map]

/-- Witness for `claim_C6_per_post_failure`: two posts, the second failing. -/
theorem claim_C6_per_post_failure_witness :
    (processPostsW 0 [(("a").data, .ok (some 3, none)), (("b").data, .error ())]).length = 2 ∧
    (processPostsW 0 [(("a").data, .ok (some 3, none)), (("b").data, .error ())])[1]? =
      some ⟨("b").data, none, none, none⟩ ∧
    (processPostsS none [(("a").data, .ok (some 3, none)), (("b").data, .error ())])[1]? =
      some ⟨("b").data, none, none, none⟩ ∧
    (processPostsW 0 [(("a").data, .ok (some 3, none)), (("b").data, .error ())])[0]? =
      Option.map (fun uf => postRecordW 0 uf.1 uf.2)
        (([(("a").data, .ok (some 3, none)), (("b").data, .error ())] :
          List (List Char × Except Unit (Option Int × Option Int)))[0]?) := by
  have h := claim_C6_per_post_failure 0 none
    [(("a").data, .ok (some 3, none)), (("b").data, .error ())] 1 (("b").data) (by rfl)
  exact ⟨h.1, h.2.1, h.2.2.2.2.1, h.2.2.1 0⟩

/-- If no character of the input belongs to the class `[\d,.]`, `re.findall`
finds no run. -/
theorem numRunsF_eq_nil (n : Nat) :
    ∀ l : List Char, (∀ c ∈ l, isNumClassChar c = false) → numRunsF n l = [] := by
  induction n with
  | zero => intro l _; rfl
  | succ m ih =>
    intro l hl
    cases l with
    | nil => rfl
    | cons c cs =>
      rw [numRunsF, if_neg]
      · exact ih cs (fun d hd => hl d (List.mem_cons_of_mem c hd))
      · simp [hl c (List.mem_cons_self c cs)]

/-- Claim C4 counterexample: `extract_numbers` applied to the string `"..."`
raises an uncaught `ValueError` — the token `"..."` matches `([\d,.]+)` but
`float("...")` fails — so the scripts-variant extractor can raise on an
input, it does not always represent a miss as a null field. -/
theorem claim_C4_counterexample :
    extract_numbers (("...").data) = .error () := rfl

/-- Claim C4 (amended): on inputs containing none of the expected patterns
every extractor yields an all-null result without raising: `extract_numbers`
returns `None` when no character of the class `[\d,.]` occurs; the workflow
profile extractor returns all-null counts when no JSON-blob pattern matches;
and the workflow post extractor returns null likes and comments when
additionally neither fallback regex matches.  (The workflow extractors are
total — every internal exception is caught — while `extract_numbers` can
raise `ValueError` on a matched but non-numeric token such as `"..."`.) -/
theorem claim_C4_extraction_miss (s html : List Char)
    (hs : ∀ c ∈ s, isNumClassChar c = false)
    (hb : find_json_blobs html = [])
    (hl : searchCount (("edge_media_preview_like").data) html = none)
    (hc : searchCount (("edge_media_to_parent_comment").data) html = none) :
    extract_numbers s = .ok none ∧
    extract_profile_counts [] = ⟨.null, .null, .null⟩ ∧
    extractProfileFromHtml html = ⟨.null, .null, .null⟩ ∧
    extract_like_comment_from_post_html html = ⟨.null, .null⟩ := by
  refine ⟨?_, rfl, ?_, ?_⟩
  · rw [extract_numbers]
    by_cases hnil : s = []
    · rw [if_pos hnil]
    · rw [if_neg hnil, numRuns, numRunsF_eq_nil]
      intro c hcmem
      exact hs c (List.mem_of_mem_filter hcmem)
  · rw [extractProfileFromHtml, hb]
    rfl
  · rw [extract_like_comment_from_post_html, hb, hl, hc]
    rfl

/-- Witness for `claim_C4_extraction_miss` on pattern-free inputs. -/
theorem claim_C4_extraction_miss_witness :
    extract_numbers (("abc").data) = .ok none ∧
    extract_profile_counts [] = ⟨.null, .null, .null⟩ ∧
    extractProfileFromHtml (("<p>hi</p>").data) = ⟨.null, .null, .null⟩ ∧
    extract_like_comment_from_post_html (("<p>hi</p>").data) = ⟨.null, .null⟩ :=
  claim_C4_extraction_miss (("abc").data) (("<p>hi</p>").data)
    (by decide) (by rfl) (by rfl) (by rfl)

/-- Claim C8 counterexample: a page carrying the follower count only as the
bare substring `"edge_followed_by":\x7b"count":1500\x7d` — outside every
embedded-JSON pattern — extracts a null follower count, not 1500: the
extractor requires the substring to sit inside a parseable matched blob at
the expected nested path. -/
theorem claim_C8_counterexample :
    hasSubstr (("\"edge_followed_by\":\x7b\"count\":1500\x7d").data) c8BareHtml = true ∧
    (extractProfileFromHtml c8BareHtml).followers = .null ∧
    JValue.null ≠ JValue.num 1500 := by
  refine ⟨by decide, rfl, fun hcon => JValue.noConfusion hcon⟩

set_option maxRecDepth 200000 in
/-- Claim C8 (amended): the follower count 1500 is extracted when the
`"edge_followed_by":\x7b"count":1500\x7d` substring sits inside a parseable
`<script type="application/json">` blob at the path
`entry_data.ProfilePage[0].graphql.user`: such a page parses to exactly the
expected blob and yields `followers = 1500`, both at the blob level and end
to end from the HTML. -/
theorem claim_C8_blob_extraction :
    find_json_blobs c8GoodHtml = [c8Blob] ∧
    (extract_profile_counts [c8Blob]).followers = .num 1500 ∧
    (extractProfileFromHtml c8GoodHtml).followers = .num 1500 := by
  refine ⟨rfl, rfl, rfl⟩

/-- Claim C2 counterexample: with one post of 10 likes and one post of null
likes, the code's `avg_like_estimate` coerces the null to `0` and divides by
all posts, giving `5`, while the claimed mean over posts with a non-null
value is `10`. -/
theorem claim_C2_counterexample :
    avgLikeEstimate
        [⟨("u1").data, some 10, some 2, none⟩, ⟨("u2").data, none, none, none⟩] =
      .ok (some 5) ∧
    specMeanNonNull
        (([⟨("u1").data, some 10, some 2, none⟩, ⟨("u2").data, none, none, none⟩] :
            List PostStat).map (fun p => p.likes.map (fun n => (n : ℚ)))) =
      some 10 ∧
    (5 : ℚ) ≠ 10 := by
  refine ⟨?_, ?_, by norm_num⟩
  · show Except.ok (some (((10 : Int) : ℚ) / (2 : ℚ))) = Except.ok (some 5)
    norm_num
  · show some ((0 + (10 : ℚ)) / (1 : ℚ)) = some 10
    norm_num

/-- Claim C2 (amended): `avg_engagement_estimate` is exactly the spec's mean
over posts with non-null engagement (null when there is none), but
`avg_like_estimate` and `avg_comment_estimate` coerce null counts to `0` and
divide by the number of all sampled posts, returning null exactly when the
post list is empty; no average ever raises a division error (`Except.ok`). -/
theorem claim_C2_averages (posts : List PostStat) :
    avgEngEstimate posts = .ok (specMeanNonNull (posts.map (fun p => p.engagement))) ∧
    avgLikeEstimate posts = .ok (coercedMeanAll (posts.map (fun p => p.likes))) ∧
    avgCommentEstimate posts = .ok (coercedMeanAll (posts.map (fun p => p.comments))) := by
  refine ⟨?_, ?_, ?_⟩
  · have hfm : (posts.map (fun p => p.engagement)).filterMap id =
        posts.filterMap (fun p => p.engagement) := by
      rw [List.filterMap_map]
      rfl
    rw [avgEngEstimate, specMeanNonNull]
    simp only [hfm]
    by_cases h : (posts.filterMap (fun p => p.engagement)).length = 0
    · simp [h]
    · simp [h, pyDiv, Nat.cast_ne_zero.mpr h]
      rfl
  · rw [avgLikeEstimate, coercedMeanAll, List.length_map, List.foldl_map]
    by_cases h : posts.length = 0
    · simp [h]
    · simp [h, pyDiv, Nat.cast_ne_zero.mpr h]
      rfl
  · rw [avgCommentEstimate, coercedMeanAll, List.length_map, List.foldl_map]
    by_cases h : posts.length = 0
    · simp [h]
    · simp [h, pyDiv, Nat.cast_ne_zero.mpr h]
      rfl

/-- Decoding inverts encoding for optional ints. -/
theorem decodeOptInt_jOfOptInt (x : Option Int) : decodeOptInt (jOfOptInt x) = some x := by
  cases x <;> rfl

/-- Decoding inverts encoding for optional floats. -/
theorem decodeOptQ_jOfOptQ (x : Option ℚ) : decodeOptQ (jOfOptQ x) = some x := by
  cases x <;> rfl

/-- Decoding inverts encoding for the sampled-post count. -/
theorem decodeNat_natCast (n : Nat) : decodeNat (.num (n : ℚ)) = some n := by
  rw [decodeNat]
  simp [Int.toNat_natCast]

/-- Decoding inverts encoding for one post record. -/
theorem decodePost_encodePost (p : PostStat) : decodePost (encodePost p) = some p := by
  obtain ⟨u, l, c, e⟩ := p
  cases l <;> cases c <;> cases e <;> rfl

/-- Decoding inverts encoding across the post list. -/
theorem mapM_decodePost (ps : List PostStat) :
    (ps.map encodePost).mapM decodePost = some ps := by
  induction ps with
  | nil => rfl
  | cons p t ih =>
    rw [List.map_cons, List.mapM_cons, decodePost_encodePost, ih]
    rfl

/-- Reading back a named optional-int field of an encoded run. -/
theorem decodeFieldOptInt_encodeRun (r : RunResult) (k : List Char) (x : Option Int)
    (h : jField (encodeRun r) k = some (jOfOptInt x)) :
    decodeFieldOptInt (encodeRun r) k = some x := by
  simp only [decodeFieldOptInt, h, decodeOptInt_jOfOptInt]

/-- Reading back a named optional-float field of an encoded run. -/
theorem decodeFieldOptQ_encodeRun (r : RunResult) (k : List Char) (x : Option ℚ)
    (h : jField (encodeRun r) k = some (jOfOptQ x)) :
    decodeFieldOptQ (encodeRun r) k = some x := by
  simp only [decodeFieldOptQ, h, decodeOptQ_jOfOptQ]

/-- Reading back the sampled-post count of an encoded run. -/
theorem decodeFieldNat_encodeRun (r : RunResult) (k : List Char) (n : Nat)
    (h : jField (encodeRun r) k = some (.num (n : ℚ))) :
    decodeFieldNat (encodeRun r) k = some n := by
  simp only [decodeFieldNat, h, decodeNat_natCast]

/-- Reading back the post list of an encoded run. -/
theorem decodeFieldPosts_encodeRun (r : RunResult) :
    decodeFieldPosts (encodeRun r) = some r.posts := by
  have h : jField (encodeRun r) ("posts").data = some (.arr (r.posts.map encodePost)) := rfl
  simp only [decodeFieldPosts, h, mapM_decodePost]

/-- Claim C9: parsing the JSON text written to `summary.json` yields the same
run result, field for field, that the aggregator produced — decoding the
serialized JSON value is the identity on `RunResult`. -/
theorem claim_C9_roundtrip (r : RunResult) : decodeRun (encodeRun r) = some r := by
  rw [decodeRun,
    show decodeFieldStr (encodeRun r) (("profile_url").data) = some r.profile_url from rfl,
    decodeFieldOptInt_encodeRun r (("followers").data) r.followers rfl,
    decodeFieldOptInt_encodeRun r (("following").data) r.following rfl,
    decodeFieldOptInt_encodeRun r (("posts_total").data) r.posts_total rfl,
    decodeFieldNat_encodeRun r (("posts_sampled").data) r.posts_sampled rfl,
    decodeFieldOptQ_encodeRun r (("avg_like_estimate").data) r.avg_like_estimate rfl,
    decodeFieldOptQ_encodeRun r (("avg_comment_estimate").data) r.avg_comment_estimate rfl,
    decodeFieldOptQ_encodeRun r (("avg_engagement_estimate").data) r.avg_engagement_estimate rfl,
    decodeFieldPosts_encodeRun r]

end IgAnalyzer
